import Mathlib

/-!
Serverless Pong — verification of the session state machine

A shallow embedding of the game handler in `src/pong/src/pong.js`.

The handler is a stateless HTTP demultiplexer over a Redis-backed session
store.  We model one session cell (the store entry addressed by the request's
session identifier) as `Option Session`; every handler takes the cell's
current content and returns the HTTP response together with the cell's new
content.  Wall-clock reads (`Date.now()`) become an explicit `now : Nat`
parameter (milliseconds).  JavaScript numbers on session fields are modelled
as `ℚ`; fields that the code can leave `undefined` (the ball group, which
`handleUpdate` assigns from possibly-absent body fields) are `Option ℚ`,
with `none` standing for `undefined`/`null`.  The JSON body of an `update`
request is a record of optional fields — `none` means the key is absent
(JavaScript `undefined`), mirroring the `!== undefined` guards in the code.
`winner` can be present-and-null in a request body, hence `Option (Option ℚ)`
there.  Redis availability and the JSON-parse outcome of the request body are
explicit parameters of `handleRequest`, mirroring `ensureRedisAvailable` and
the `JSON.parse` call (whose failure is an exception caught by the outermost
`catch`).
-/

/-- The `WINNING_SCORE` constant from the game client embedded in `pong.js`. -/
def WINNING_SCORE : ℚ := 3

/-- One stored game session, mirroring the object built in `handleCreate`
and mutated by the other handlers (timestamps in milliseconds). -/
structure Session where
  ballX : Option ℚ
  ballY : Option ℚ
  ballVelX : Option ℚ
  ballVelY : Option ℚ
  ballSpeedMultiplier : ℚ
  p1Y : ℚ
  p2Y : ℚ
  p1Score : ℚ
  p2Score : ℚ
  gameStarted : Bool
  winner : Option ℚ
  countdownActive : Bool
  countdownValue : ℚ
  countdownStartTime : Option Nat
  readyToStart : Bool
  lastUpdate : Nat
  p1Connected : Bool
  p2Connected : Bool
deriving DecidableEq, Repr

/-- Parsed JSON body of a POST request.  A `none` field is absent from the
JSON object (JavaScript `undefined`); `winner` distinguishes absent
(`none`) from present-and-null (`some none`). -/
structure UpdateBody where
  sessionId : Option String := none
  player : Option ℚ := none
  paddleY : Option ℚ := none
  ballX : Option ℚ := none
  ballY : Option ℚ := none
  ballVelX : Option ℚ := none
  ballVelY : Option ℚ := none
  ballSpeedMultiplier : Option ℚ := none
  p1Score : Option ℚ := none
  p2Score : Option ℚ := none
  winner : Option (Option ℚ) := none
  countdownActive : Option Bool := none
  countdownValue : Option ℚ := none
  gameStarted : Option Bool := none
  readyToStart : Option Bool := none
deriving DecidableEq, Repr

/-- The JSON (or HTML) response bodies produced by `pong.js`. -/
inductive RespBody where
  | htmlPage : RespBody
  | created (sessionId : String) (success : Bool) : RespBody
  | joined (success : Bool) (p2Connected : Bool) : RespBody
  | simpleOk (success : Bool) : RespBody
  | stateOk (success : Bool) (state : Session) : RespBody
  | errorMsg (success : Bool) (error : String) : RespBody
  | unavailableMsg (success : Bool) (error : String) (detail : Option String) : RespBody
deriving DecidableEq, Repr

/-- An HTTP response: status code plus body shape. -/
structure Response where
  statusCode : Nat
  body : RespBody
deriving DecidableEq, Repr

/-- The 503 response built by `redisUnavailableResponse` in `pong.js`;
`detail` is the module-level `redisUnavailableMessage`. -/
def redisUnavailableResponse (detail : Option String) : Response :=
  ⟨503, .unavailableMsg false "Redis connection unavailable" detail⟩

/-- Helper `setSession` stamps `lastUpdate = Date.now()` on every write
(the TTL refresh has no observable effect in this model). -/
def setSession (now : Nat) (s : Session) : Session :=
  { s with lastUpdate := now }

/-- The fresh session object built by `handleCreate` (`lastUpdate: Date.now()`;
`countdownStartTime` is absent, i.e. `undefined`, modelled `none`). -/
def initialSession (now : Nat) : Session :=
  { ballX := some 400
    ballY := some 300
    ballVelX := some 10
    ballVelY := some (15/2)
    ballSpeedMultiplier := 1
    p1Y := 300
    p2Y := 300
    p1Score := 0
    p2Score := 0
    gameStarted := false
    winner := none
    countdownActive := false
    countdownValue := 0
    countdownStartTime := none
    readyToStart := false
    lastUpdate := now
    p1Connected := true
    p2Connected := false }

/-- Handler `handleCreate`: build the default session, persist it under a freshly
generated identifier (the call to `generateSessionId` is modelled by the
`sessionId` parameter), answer `{sessionId, success: true}`. -/
def handleCreate (sessionId : String) (now : Nat) : Response × Option Session :=
  (⟨200, .created sessionId true⟩, some (setSession now (initialSession now)))

/-- The 404 body shared by all five session-keyed handlers. -/
def sessionNotFound : Response :=
  ⟨404, .errorMsg false "Session not found"⟩

/-- Handler `handleJoin`: set `p2Connected = true`, persist, answer
`{success: true, p2Connected: true}`; 404 when the session is absent. -/
def handleJoin (store : Option Session) (now : Nat) : Response × Option Session :=
  match store with
  | some session =>
      let session := { session with p2Connected := true }
      (⟨200, .joined true true⟩, some (setSession now session))
  | none => (sessionNotFound, none)

/-- Handler `handleStart`: arm the countdown (`countdownActive = true`,
`countdownValue = 3`, `countdownStartTime = Date.now()`), persist. -/
def handleStart (store : Option Session) (now : Nat) : Response × Option Session :=
  match store with
  | some session =>
      let session := { session with
        countdownActive := true
        countdownValue := 3
        countdownStartTime := some now }
      (⟨200, .simpleOk true⟩, some (setSession now session))
  | none => (sessionNotFound, none)

/-- Handler `handleReset`: restore ball/score/winner/gameStarted to the creation
values, re-arm the countdown, clear `readyToStart`, persist. -/
def handleReset (store : Option Session) (now : Nat) : Response × Option Session :=
  match store with
  | some session =>
      let session := { session with
        ballX := some 400
        ballY := some 300
        ballVelX := some 10
        ballVelY := some (15/2)
        ballSpeedMultiplier := 1
        p1Score := 0
        p2Score := 0
        gameStarted := false
        winner := none
        countdownActive := true
        countdownValue := 3
        countdownStartTime := some now
        readyToStart := false }
      (⟨200, .simpleOk true⟩, some (setSession now session))
  | none => (sessionNotFound, none)

/-!
The `handleUpdate` patch

The body of `handleUpdate` is a sequence of guarded assignment blocks on the
loaded session; each block below is one of those `if` statements, applied in
source order.  Note the ball block: `if (body.ballX !== undefined)` assigns
all four of `ballX`, `ballY`, `ballVelX`, `ballVelY` from the body, whether
or not the latter three are present (an absent one assigns `undefined`).
-/

/-- Block `if (body.player === 1 && body.paddleY !== undefined) ... else if
(body.player === 2 && body.paddleY !== undefined) ...` -/
def patchPaddle (b : UpdateBody) (s : Session) : Session :=
  if b.player = some 1 ∧ b.paddleY ≠ none then
    { s with p1Y := b.paddleY.getD s.p1Y }
  else if b.player = some 2 ∧ b.paddleY ≠ none then
    { s with p2Y := b.paddleY.getD s.p2Y }
  else s

/-- Block `if (body.ballX !== undefined)`: assign the whole ball group from the
body. -/
def patchBall (b : UpdateBody) (s : Session) : Session :=
  if b.ballX ≠ none then
    { s with ballX := b.ballX, ballY := b.ballY,
             ballVelX := b.ballVelX, ballVelY := b.ballVelY }
  else s

/-- Block `if (body.ballSpeedMultiplier !== undefined)` -/
def patchMultiplier (b : UpdateBody) (s : Session) : Session :=
  match b.ballSpeedMultiplier with
  | some v => { s with ballSpeedMultiplier := v }
  | none => s

/-- Block `if (body.p1Score !== undefined)` -/
def patchP1Score (b : UpdateBody) (s : Session) : Session :=
  match b.p1Score with
  | some v => { s with p1Score := v }
  | none => s

/-- Block `if (body.p2Score !== undefined)` -/
def patchP2Score (b : UpdateBody) (s : Session) : Session :=
  match b.p2Score with
  | some v => { s with p2Score := v }
  | none => s

/-- Block `if (body.winner !== undefined)` (a present-and-null `winner` assigns
null). -/
def patchWinner (b : UpdateBody) (s : Session) : Session :=
  match b.winner with
  | some w => { s with winner := w }
  | none => s

/-- Block `if (body.countdownActive !== undefined)`, including the special rule:
`countdownActive === false && body.countdownValue === 0` also sets
`readyToStart = true`. -/
def patchCountdownActive (b : UpdateBody) (s : Session) : Session :=
  match b.countdownActive with
  | some v =>
      let s1 := { s with countdownActive := v }
      if v = false ∧ b.countdownValue = some 0 then
        { s1 with readyToStart := true }
      else s1
  | none => s

/-- Block `if (body.countdownValue !== undefined)` -/
def patchCountdownValue (b : UpdateBody) (s : Session) : Session :=
  match b.countdownValue with
  | some v => { s with countdownValue := v }
  | none => s

/-- Block `if (body.gameStarted !== undefined)` -/
def patchGameStarted (b : UpdateBody) (s : Session) : Session :=
  match b.gameStarted with
  | some v => { s with gameStarted := v }
  | none => s

/-- Block `if (body.readyToStart !== undefined)` -/
def patchReadyToStart (b : UpdateBody) (s : Session) : Session :=
  match b.readyToStart with
  | some v => { s with readyToStart := v }
  | none => s

/-- The full sparse patch of `handleUpdate`, blocks in source order. -/
def applyUpdate (b : UpdateBody) (s : Session) : Session :=
  patchReadyToStart b (patchGameStarted b (patchCountdownValue b
    (patchCountdownActive b (patchWinner b (patchP2Score b (patchP1Score b
      (patchMultiplier b (patchBall b (patchPaddle b s)))))))))

/-- Handler `handleUpdate`: load the session, apply the sparse patch, persist,
answer `{success: true}`; 404 when the session is absent. -/
def handleUpdate (store : Option Session) (b : UpdateBody) (now : Nat) :
    Response × Option Session :=
  match store with
  | some session => (⟨200, .simpleOk true⟩, some (setSession now (applyUpdate b session)))
  | none => (sessionNotFound, none)

/-!
The `handleState` handler
-/

/-- JavaScript truthiness of `session.countdownStartTime` (a `number | null |
undefined` value): `null`/`undefined` (`none`) and the number `0` are falsy. -/
def truthyTime : Option Nat → Bool
  | none => false
  | some v => v != 0

/-- The countdown recomputation block of `handleState` (run when
`session.countdownActive && session.countdownStartTime` is truthy):
`elapsed = Date.now() - countdownStartTime`, `secondsElapsed =
Math.floor(elapsed / 1000)`, clamp at 0 from 3, and flip the flags when the
recomputed value reaches 0. -/
def resolveCountdown (now : Nat) (session : Session) : Session :=
  let elapsed : Int := (now : Int) - (session.countdownStartTime.getD 0 : Int)
  let secondsElapsed : Int := Int.fdiv elapsed 1000
  let newCountdownValue : ℚ := if 3 ≤ secondsElapsed then 0 else ((3 - secondsElapsed : Int) : ℚ)
  let s1 := if newCountdownValue ≠ session.countdownValue then
      { session with countdownValue := newCountdownValue }
    else session
  if newCountdownValue = 0 then
    { s1 with countdownActive := false, readyToStart := true, countdownStartTime := none }
  else s1

/-- Handler `handleState`: load the session; when the countdown is active with a
truthy anchor, recompute it from elapsed wall-clock time and persist the
side effect before answering `{success: true, state}`; otherwise answer with
the session as loaded. -/
def handleState (store : Option Session) (now : Nat) : Response × Option Session :=
  match store with
  | some session =>
      if session.countdownActive = true ∧ truthyTime session.countdownStartTime = true then
        let s3 := setSession now (resolveCountdown now session)
        (⟨200, .stateOk true s3⟩, some s3)
      else
        (⟨200, .stateOk true session⟩, some session)
  | none => (sessionNotFound, none)

/-!
The `handleRequest` demultiplexer
-/

/-- JavaScript truthiness of `urlObj.searchParams.get('action')`: `null`
(absent) and the empty string are falsy. -/
def actionTruthy : Option String → Bool
  | none => false
  | some a => a != ""

/-- Handler `handleRequest`: the platform-agnostic demultiplexer.  `redisOk` is the
outcome of `ensureRedisAvailable` (probed before anything else on the POST
path); `redisDetail` the module-level `redisUnavailableMessage`; `body` the
outcome of `JSON.parse` on the raw body, whose exception is caught by the
outermost `catch` and answered as a 500 carrying `error.message`;
`newSessionId` the identifier `generateSessionId` would produce for
`create`. -/
def handleRequest (method : String) (action : Option String) (redisOk : Bool)
    (redisDetail : Option String) (body : Except String UpdateBody)
    (newSessionId : String) (store : Option Session) (now : Nat) :
    Response × Option Session :=
  if method = "GET" ∧ actionTruthy action = false then
    (⟨200, .htmlPage⟩, store)
  else if method = "POST" then
    if redisOk = false then
      (redisUnavailableResponse redisDetail, store)
    else
      match body with
      | .error msg => (⟨500, .errorMsg false msg⟩, store)
      | .ok b =>
        if action = some "create" then handleCreate newSessionId now
        else if action = some "join" then handleJoin store now
        else if action = some "start" then handleStart store now
        else if action = some "reset" then handleReset store now
        else if action = some "update" then handleUpdate store b now
        else if action = some "state" then handleState store now
        else (⟨400, .errorMsg false "Invalid action"⟩, store)
  else
    (⟨405, .errorMsg false "Method not allowed"⟩, store)

/-!
Characterization of the sparse patch

Each block of `handleUpdate` is rewritten as a single record update with
conditional fields, so that per-field behaviour of `applyUpdate` can be read
off by composition.
-/

theorem patchPaddle_eq (b : UpdateBody) (s : Session) :
    patchPaddle b s =
      { s with
        p1Y := if b.player = some 1 ∧ b.paddleY ≠ none then b.paddleY.getD s.p1Y else s.p1Y
        p2Y := if b.player = some 2 ∧ b.paddleY ≠ none then b.paddleY.getD s.p2Y else s.p2Y } := by
  unfold patchPaddle
  by_cases h1 : b.player = some 1 ∧ b.paddleY ≠ none
  · have h2 : ¬ (b.player = some 2 ∧ b.paddleY ≠ none) := by
      rintro ⟨hp2, -⟩
      rw [h1.1] at hp2
      simp only [Option.some.injEq] at hp2
      norm_num at hp2
    simp only [if_pos h1, if_neg h2]
  · by_cases h2 : b.player = some 2 ∧ b.paddleY ≠ none
    · simp only [if_neg h1, if_pos h2]
    · simp only [if_neg h1, if_neg h2]

theorem patchBall_eq (b : UpdateBody) (s : Session) :
    patchBall b s =
      { s with
        ballX := if b.ballX ≠ none then b.ballX else s.ballX
        ballY := if b.ballX ≠ none then b.ballY else s.ballY
        ballVelX := if b.ballX ≠ none then b.ballVelX else s.ballVelX
        ballVelY := if b.ballX ≠ none then b.ballVelY else s.ballVelY } := by
  unfold patchBall
  split_ifs <;> rfl

theorem patchMultiplier_eq (b : UpdateBody) (s : Session) :
    patchMultiplier b s =
      { s with ballSpeedMultiplier := b.ballSpeedMultiplier.getD s.ballSpeedMultiplier } := by
  unfold patchMultiplier
  cases b.ballSpeedMultiplier <;> rfl

theorem patchP1Score_eq (b : UpdateBody) (s : Session) :
    patchP1Score b s = { s with p1Score := b.p1Score.getD s.p1Score } := by
  unfold patchP1Score
  cases b.p1Score <;> rfl

theorem patchP2Score_eq (b : UpdateBody) (s : Session) :
    patchP2Score b s = { s with p2Score := b.p2Score.getD s.p2Score } := by
  unfold patchP2Score
  cases b.p2Score <;> rfl

theorem patchWinner_eq (b : UpdateBody) (s : Session) :
    patchWinner b s = { s with winner := b.winner.getD s.winner } := by
  unfold patchWinner
  cases b.winner <;> rfl

theorem patchCountdownActive_eq (b : UpdateBody) (s : Session) :
    patchCountdownActive b s =
      { s with
        countdownActive := b.countdownActive.getD s.countdownActive
        readyToStart :=
          if b.countdownActive = some false ∧ b.countdownValue = some 0 then true
          else s.readyToStart } := by
  unfold patchCountdownActive
  cases h : b.countdownActive with
  | none => simp [h]
  | some v =>
    simp only [h, Option.getD_some]
    by_cases hv : v = false ∧ b.countdownValue = some 0
    · have hv2 : some v = some false ∧ b.countdownValue = some 0 := by
        exact ⟨by rw [hv.1], hv.2⟩
      rw [if_pos hv, if_pos hv2]
    · have hv2 : ¬ (some v = some false ∧ b.countdownValue = some 0) := by
        rintro ⟨hvf, hcv⟩
        exact hv ⟨Option.some.inj hvf, hcv⟩
      rw [if_neg hv, if_neg hv2]

theorem patchCountdownValue_eq (b : UpdateBody) (s : Session) :
    patchCountdownValue b s = { s with countdownValue := b.countdownValue.getD s.countdownValue } := by
  unfold patchCountdownValue
  cases b.countdownValue <;> rfl

theorem patchGameStarted_eq (b : UpdateBody) (s : Session) :
    patchGameStarted b s = { s with gameStarted := b.gameStarted.getD s.gameStarted } := by
  unfold patchGameStarted
  cases b.gameStarted <;> rfl

theorem patchReadyToStart_eq (b : UpdateBody) (s : Session) :
    patchReadyToStart b s = { s with readyToStart := b.readyToStart.getD s.readyToStart } := by
  unfold patchReadyToStart
  cases b.readyToStart <;> rfl

/-- The full sparse patch, flattened into a single record update.  Every
field supplied in the body overwrites, with two exceptions to pure per-field
patching: the ball group is gated on the presence of `ballX` alone, and
`readyToStart` is forced to `true` by a `countdownActive=false,
countdownValue=0` pair when the body does not itself carry `readyToStart`. -/
theorem applyUpdate_eq (b : UpdateBody) (s : Session) :
    applyUpdate b s =
      { s with
        p1Y := if b.player = some 1 ∧ b.paddleY ≠ none then b.paddleY.getD s.p1Y else s.p1Y
        p2Y := if b.player = some 2 ∧ b.paddleY ≠ none then b.paddleY.getD s.p2Y else s.p2Y
        ballX := if b.ballX ≠ none then b.ballX else s.ballX
        ballY := if b.ballX ≠ none then b.ballY else s.ballY
        ballVelX := if b.ballX ≠ none then b.ballVelX else s.ballVelX
        ballVelY := if b.ballX ≠ none then b.ballVelY else s.ballVelY
        ballSpeedMultiplier := b.ballSpeedMultiplier.getD s.ballSpeedMultiplier
        p1Score := b.p1Score.getD s.p1Score
        p2Score := b.p2Score.getD s.p2Score
        winner := b.winner.getD s.winner
        countdownActive := b.countdownActive.getD s.countdownActive
        countdownValue := b.countdownValue.getD s.countdownValue
        gameStarted := b.gameStarted.getD s.gameStarted
        readyToStart :=
          b.readyToStart.getD
            (if b.countdownActive = some false ∧ b.countdownValue = some 0 then true
             else s.readyToStart) } := by
  unfold applyUpdate
  rw [patchPaddle_eq, patchBall_eq, patchMultiplier_eq, patchP1Score_eq, patchP2Score_eq,
    patchWinner_eq, patchCountdownActive_eq, patchCountdownValue_eq, patchGameStarted_eq,
    patchReadyToStart_eq]

/-!
Reachable session states

A session is born in `handleCreate` and then transformed by the
session-keyed handlers; each constructor below is the effect of one
successful handler call on the stored session (the `now` argument is that
call's `Date.now()`).
-/

/-- One successful session-keyed operation. -/
inductive Op where
  | opJoin (now : Nat) : Op
  | opStart (now : Nat) : Op
  | opReset (now : Nat) : Op
  | opUpdate (b : UpdateBody) (now : Nat) : Op
  | opState (now : Nat) : Op
deriving Repr

/-- The effect of one operation on the stored session, read off from the
corresponding handler's success branch. -/
def stepOp (s : Session) : Op → Session
  | .opJoin now => setSession now { s with p2Connected := true }
  | .opStart now =>
      setSession now
        { s with countdownActive := true, countdownValue := 3, countdownStartTime := some now }
  | .opReset now =>
      setSession now
        { s with
          ballX := some 400, ballY := some 300, ballVelX := some 10, ballVelY := some (15/2),
          ballSpeedMultiplier := 1, p1Score := 0, p2Score := 0, gameStarted := false,
          winner := none, countdownActive := true, countdownValue := 3,
          countdownStartTime := some now, readyToStart := false }
  | .opUpdate b now => setSession now (applyUpdate b s)
  | .opState now =>
      if s.countdownActive = true ∧ truthyTime s.countdownStartTime = true then
        setSession now (resolveCountdown now s)
      else s

/-- Lemma group: `stepOp` agrees with the handlers on an existing session. -/
theorem stepOp_handleJoin (s : Session) (now : Nat) :
    handleJoin (some s) now = (⟨200, .joined true true⟩, some (stepOp s (.opJoin now))) := rfl

theorem stepOp_handleStart (s : Session) (now : Nat) :
    handleStart (some s) now = (⟨200, .simpleOk true⟩, some (stepOp s (.opStart now))) := rfl

theorem stepOp_handleReset (s : Session) (now : Nat) :
    handleReset (some s) now = (⟨200, .simpleOk true⟩, some (stepOp s (.opReset now))) := rfl

theorem stepOp_handleUpdate (s : Session) (b : UpdateBody) (now : Nat) :
    handleUpdate (some s) b now = (⟨200, .simpleOk true⟩, some (stepOp s (.opUpdate b now))) := rfl

theorem stepOp_handleState (s : Session) (now : Nat) :
    handleState (some s) now = (⟨200, .stateOk true (stepOp s (.opState now))⟩, some (stepOp s (.opState now))) := by
  simp only [handleState, stepOp]
  split_ifs <;> rfl

/-- A session state reachable by a `create` followed by any sequence of
successful operations. -/
def ReachableSession (s : Session) : Prop :=
  ∃ (now0 : Nat) (ops : List Op), s = ops.foldl stepOp (initialSession now0)

/-- An operation whose body cannot write a non-null `winner`. -/
def NoWinnerWrite : Op → Prop
  | .opUpdate b _ => b.winner = none ∨ b.winner = some none
  | _ => True

theorem stepOp_winner_none (s : Session) (op : Op) (hop : NoWinnerWrite op)
    (hs : s.winner = none) : (stepOp s op).winner = none := by
  cases op with
  | opJoin now => simpa [stepOp, setSession] using hs
  | opStart now => simpa [stepOp, setSession] using hs
  | opReset now => simp [stepOp, setSession]
  | opUpdate b now =>
      simp only [stepOp, setSession, applyUpdate_eq]
      rcases hop with h | h <;> simp [h, hs]
  | opState now =>
      simp only [stepOp]
      split_ifs with h
      · simp only [setSession, resolveCountdown]
        split_ifs <;> simpa using hs
      · exact hs

theorem foldl_winner_none (ops : List Op) (s : Session)
    (hops : ∀ op ∈ ops, NoWinnerWrite op) (hs : s.winner = none) :
    (ops.foldl stepOp s).winner = none := by
  induction ops generalizing s with
  | nil => simpa using hs
  | cons op rest ih =>
      simp only [List.foldl_cons]
      exact ih _ (fun o ho => hops o (List.mem_cons_of_mem _ ho))
        (stepOp_winner_none s op (hops op (List.mem_cons_self _ _)) hs)

/-!
Characterization of the countdown recomputation
-/

/-- The recomputed countdown value is exactly the clamped formula
`max 0 (3 - floor(elapsed / 1000))`, and the zero case flips the flags. -/
theorem resolveCountdown_eq (now : Nat) (s : Session) :
    resolveCountdown now s =
      if ((max 0 (3 - Int.fdiv ((now : Int) - (s.countdownStartTime.getD 0 : Int)) 1000) : Int) : ℚ) = 0 then
        { s with countdownValue := 0, countdownActive := false, readyToStart := true,
                 countdownStartTime := none }
      else
        { s with countdownValue :=
            ((max 0 (3 - Int.fdiv ((now : Int) - (s.countdownStartTime.getD 0 : Int)) 1000) : Int) : ℚ) } := by
  simp only [resolveCountdown]
  have hnv :
      (if (3 : Int) ≤ Int.fdiv ((now : Int) - (s.countdownStartTime.getD 0 : Int)) 1000 then (0 : ℚ)
       else ((3 - Int.fdiv ((now : Int) - (s.countdownStartTime.getD 0 : Int)) 1000 : Int) : ℚ)) =
      ((max 0 (3 - Int.fdiv ((now : Int) - (s.countdownStartTime.getD 0 : Int)) 1000) : Int) : ℚ) := by
    rcases le_or_lt 3 (Int.fdiv ((now : Int) - (s.countdownStartTime.getD 0 : Int)) 1000) with h | h
    · rw [if_pos h]
      have hm : max (0 : Int) (3 - Int.fdiv ((now : Int) - (s.countdownStartTime.getD 0 : Int)) 1000) = 0 :=
        max_eq_left (by omega)
      rw [hm]
      norm_num
    · rw [if_neg (not_le.mpr h)]
      have hm : max (0 : Int) (3 - Int.fdiv ((now : Int) - (s.countdownStartTime.getD 0 : Int)) 1000) =
          3 - Int.fdiv ((now : Int) - (s.countdownStartTime.getD 0 : Int)) 1000 :=
        max_eq_right (by omega)
      rw [hm]
  rw [hnv]
  have hs1 :
      (if ((max 0 (3 - Int.fdiv ((now : Int) - (s.countdownStartTime.getD 0 : Int)) 1000) : Int) : ℚ)
          ≠ s.countdownValue then
        { s with countdownValue :=
            ((max 0 (3 - Int.fdiv ((now : Int) - (s.countdownStartTime.getD 0 : Int)) 1000) : Int) : ℚ) }
      else s) =
      { s with countdownValue :=
          ((max 0 (3 - Int.fdiv ((now : Int) - (s.countdownStartTime.getD 0 : Int)) 1000) : Int) : ℚ) } := by
    by_cases hne : ((max 0 (3 - Int.fdiv ((now : Int) - (s.countdownStartTime.getD 0 : Int)) 1000) : Int) : ℚ)
        ≠ s.countdownValue
    · rw [if_pos hne]
    · rw [if_neg hne]
      push_neg at hne
      rw [hne]
  rw [hs1]
  by_cases hz : ((max 0 (3 - Int.fdiv ((now : Int) - (s.countdownStartTime.getD 0 : Int)) 1000) : Int) : ℚ) = 0
  · rw [if_pos hz, if_pos hz, hz]
  · rw [if_neg hz, if_neg hz]

/-!
Claim theorems
-/

/-- C2: for every POST request with the store unreachable, every action —
`create`, `join`, `start`, `reset`, `update`, `state`, and any other action
value — returns the 503 shape `{success: false, error, detail}` without
attempting the operation (the store is untouched), and in particular never a
404 or a 500. -/
theorem claim_C2_store_unavailable_uniform_503 (action : Option String)
    (detail : Option String) (body : Except String UpdateBody) (sid : String)
    (store : Option Session) (now : Nat) :
    handleRequest "POST" action false detail body sid store now =
      (⟨503, .unavailableMsg false "Redis connection unavailable" detail⟩, store)
    ∧ (handleRequest "POST" action false detail body sid store now).1.statusCode = 503 := by
  exact ⟨rfl, rfl⟩

/-- C5: every `create` call persists a session whose immediate read-back via
`state` has `gameStarted = false`, `winner = null`, `p1Score = 0`,
`p2Score = 0`, the ball centered (`ballX = 400`, `ballY = 300`),
`p1Connected = true`, `p2Connected = false`, and the call returns the
generated identifier with `success = true`. -/
theorem claim_C5_create_defaults (sid : String) (now now2 : Nat) :
    handleCreate sid now = (⟨200, .created sid true⟩, some (initialSession now))
    ∧ handleState (some (initialSession now)) now2 =
        (⟨200, .stateOk true (initialSession now)⟩, some (initialSession now))
    ∧ (initialSession now).gameStarted = false
    ∧ (initialSession now).winner = none
    ∧ (initialSession now).p1Score = 0
    ∧ (initialSession now).p2Score = 0
    ∧ (initialSession now).ballX = some 400
    ∧ (initialSession now).ballY = some 300
    ∧ (initialSession now).p1Connected = true
    ∧ (initialSession now).p2Connected = false := by
  exact ⟨rfl, rfl, rfl, rfl, rfl, rfl, rfl, rfl, rfl, rfl⟩

/-- C6: for every existing session, `reset` restores the ball position,
velocity and speed multiplier, both scores, `winner` and `gameStarted` to
their creation values, re-arms the countdown (`countdownActive = true`,
`countdownValue = 3`, fresh `countdownStartTime`), clears `readyToStart`,
and persists the result. -/
theorem claim_C6_reset_restores_initial (s : Session) (now : Nat) :
    handleReset (some s) now =
      (⟨200, .simpleOk true⟩, some
        { s with
          ballX := (initialSession now).ballX
          ballY := (initialSession now).ballY
          ballVelX := (initialSession now).ballVelX
          ballVelY := (initialSession now).ballVelY
          ballSpeedMultiplier := (initialSession now).ballSpeedMultiplier
          p1Score := (initialSession now).p1Score
          p2Score := (initialSession now).p2Score
          gameStarted := (initialSession now).gameStarted
          winner := (initialSession now).winner
          countdownActive := true
          countdownValue := 3
          countdownStartTime := some now
          readyToStart := false
          lastUpdate := now }) := rfl

/-- C7: for every existing session, an update whose body is exactly
`{sessionId, player: 2, paddleY: 150}` changes only `p2Y` (to 150) and
`lastUpdate`; every other session field keeps its pre-call value. -/
theorem claim_C7_paddle_only_update (s : Session) (sid : String) (now : Nat) :
    handleUpdate (some s) { sessionId := some sid, player := some 2, paddleY := some 150 } now =
      (⟨200, .simpleOk true⟩, some { s with p2Y := 150, lastUpdate := now }) := by
  simp only [handleUpdate, applyUpdate_eq, setSession]
  norm_num
  exact ⟨fun h => Option.noConfusion h, fun h => Option.noConfusion h⟩

/-- C8: `join` is idempotent — both calls answer 200 with
`{success: true, p2Connected: true}`, the session after the first call has
`p2Connected = true`, and the session after the second call equals the
session after the first except for `lastUpdate`. -/
theorem claim_C8_join_idempotent (s : Session) (n1 n2 : Nat) :
    handleJoin (some s) n1 =
      (⟨200, .joined true true⟩, some (setSession n1 { s with p2Connected := true }))
    ∧ handleJoin (some (setSession n1 { s with p2Connected := true })) n2 =
      (⟨200, .joined true true⟩,
        some { setSession n1 { s with p2Connected := true } with lastUpdate := n2 })
    ∧ (setSession n1 { s with p2Connected := true }).p2Connected = true
    ∧ ({ setSession n1 { s with p2Connected := true } with lastUpdate := n2 }).p2Connected = true := by
  exact ⟨rfl, rfl, rfl, rfl⟩

/-- C10: a GET whose URL carries a non-empty `action` query parameter does
not get the HTML client payload and does not get a 400 `InvalidAction`; it
falls through to the 405 Method-not-allowed response, for every action value
including the six recognized ones. -/
theorem claim_C10_get_with_action_is_405 (a : String) (redisOk : Bool)
    (detail : Option String) (body : Except String UpdateBody) (sid : String)
    (store : Option Session) (now : Nat) (h : a ≠ "") :
    handleRequest "GET" (some a) redisOk detail body sid store now =
      (⟨405, .errorMsg false "Method not allowed"⟩, store) := by
  have ht : actionTruthy (some a) = true := by
    simp [actionTruthy, h]
  simp [handleRequest, ht]

/-- Witness for C10 at the recognized action `state`. -/
theorem claim_C10_witness :
    handleRequest "GET" (some "state") true none (Except.ok {}) "sid" none 0 =
      (⟨405, .errorMsg false "Method not allowed"⟩, none) :=
  claim_C10_get_with_action_is_405 "state" true none (Except.ok {}) "sid" none 0 (by decide)

/-- A session whose countdown is armed but whose wall-clock anchor is the
zero timestamp: `session.countdownStartTime` is non-null yet falsy in
JavaScript, so `handleState` skips the recomputation. -/
def zeroAnchorSession : Session :=
  { initialSession 7 with countdownActive := true, countdownValue := 3, countdownStartTime := some 0 }

/-- C1 counterexample: at a session with `countdownActive = true` and the
non-null anchor `countdownStartTime = 0`, ten seconds later `state` returns
the session unchanged — `countdownValue` stays 3 and `countdownActive` stays
true — although the claimed recomputation `max(0, 3 - floor(elapsed/1s))`
yields 0 and would flip the flags.  The guard
`session.countdownActive && session.countdownStartTime` treats the numeric
timestamp 0 as falsy. -/
theorem claim_C1_counterexample :
    handleState (some zeroAnchorSession) 10000 =
      (⟨200, .stateOk true zeroAnchorSession⟩, some zeroAnchorSession)
    ∧ zeroAnchorSession.countdownActive = true
    ∧ zeroAnchorSession.countdownStartTime = some 0
    ∧ zeroAnchorSession.countdownValue = 3
    ∧ max 0 (3 - Int.fdiv ((10000 : Int) - (0 : Int)) 1000) = 0 := by
  refine ⟨rfl, rfl, rfl, rfl, by decide⟩

/-- C1 amended: for every session with `countdownActive = true` and a
non-null, non-zero `countdownStartTime`, the `state` operation recomputes
`countdownValue` as `max(0, 3 - floor((now - countdownStartTime)/1s))` — so
it is never negative — and when the recomputed value reaches 0 it sets
`countdownActive = false`, `readyToStart = true`, clears
`countdownStartTime` to null, and persists the session before returning
it. -/
theorem claim_C1_amended_countdown_resolution (s : Session) (now t : Nat)
    (hAct : s.countdownActive = true) (hT : s.countdownStartTime = some t) (hNZ : t ≠ 0) :
    handleState (some s) now =
      (⟨200, .stateOk true (setSession now (resolveCountdown now s))⟩,
        some (setSession now (resolveCountdown now s)))
    ∧ (setSession now (resolveCountdown now s)).countdownValue =
        ((max 0 (3 - Int.fdiv ((now : Int) - (t : Int)) 1000) : Int) : ℚ)
    ∧ (0 : ℚ) ≤ (setSession now (resolveCountdown now s)).countdownValue
    ∧ ((setSession now (resolveCountdown now s)).countdownValue = 0 →
        (setSession now (resolveCountdown now s)).countdownActive = false
        ∧ (setSession now (resolveCountdown now s)).readyToStart = true
        ∧ (setSession now (resolveCountdown now s)).countdownStartTime = none) := by
  have htr : truthyTime s.countdownStartTime = true := by
    rw [hT]
    simp [truthyTime, hNZ]
  have hgd : s.countdownStartTime.getD 0 = t := by
    rw [hT]
    rfl
  have hcv : (setSession now (resolveCountdown now s)).countdownValue =
      ((max 0 (3 - Int.fdiv ((now : Int) - (t : Int)) 1000) : Int) : ℚ) := by
    rw [setSession, resolveCountdown_eq, hgd]
    by_cases hz : ((max 0 (3 - Int.fdiv ((now : Int) - (t : Int)) 1000) : Int) : ℚ) = 0
    · rw [if_pos hz, hz]
    · rw [if_neg hz]
  refine ⟨?_, hcv, ?_, ?_⟩
  · simp only [handleState, if_pos (And.intro hAct htr)]
  · rw [hcv]
    exact_mod_cast le_max_left 0 (3 - Int.fdiv ((now : Int) - (t : Int)) 1000)
  · intro hz0
    rw [hcv] at hz0
    rw [setSession, resolveCountdown_eq, hgd, if_pos hz0]
    exact ⟨rfl, rfl, rfl⟩

/-- Session used by the C1 witness: countdown armed at 1000 ms. -/
def armedSession : Session :=
  { initialSession 0 with countdownActive := true, countdownValue := 3, countdownStartTime := some 1000 }

/-- Witness for C1 amended: countdown armed at t = 1000 ms, read at 5000 ms;
the recomputed value is 0 and all flags flip. -/
theorem claim_C1_amended_witness :
    handleState (some armedSession) 5000 =
      (⟨200, .stateOk true (setSession 5000 (resolveCountdown 5000 armedSession))⟩,
        some (setSession 5000 (resolveCountdown 5000 armedSession)))
    ∧ (setSession 5000 (resolveCountdown 5000 armedSession)).countdownValue =
        ((max 0 (3 - Int.fdiv ((5000 : Int) - (1000 : Int)) 1000) : Int) : ℚ)
    ∧ (0 : ℚ) ≤ (setSession 5000 (resolveCountdown 5000 armedSession)).countdownValue
    ∧ ((setSession 5000 (resolveCountdown 5000 armedSession)).countdownValue = 0 →
        (setSession 5000 (resolveCountdown 5000 armedSession)).countdownActive = false
        ∧ (setSession 5000 (resolveCountdown 5000 armedSession)).readyToStart = true
        ∧ (setSession 5000 (resolveCountdown 5000 armedSession)).countdownStartTime = none) :=
  claim_C1_amended_countdown_resolution armedSession 5000 1000 rfl rfl (by decide)

/-- An update body carrying only `sessionId` and `ballY`. -/
def ballYOnlyBody : UpdateBody := { sessionId := some "sid", ballY := some 123 }

/-- An update body carrying only `sessionId` and `ballX`. -/
def ballXOnlyBody : UpdateBody := { sessionId := some "sid", ballX := some 5 }

/-- C3 counterexample: the ball fields are not patched individually.  A body
supplying only `ballY = 123` leaves the session's `ballY` at 300 (present
field not overwritten), and a body supplying only `ballX = 5` clobbers the
session's `ballY` from 300 to `undefined` (absent field not left
untouched) — `handleUpdate` gates all four ball assignments on the presence
of `ballX` alone. -/
theorem claim_C3_counterexample :
    (initialSession 0).ballY = some 300
    ∧ handleUpdate (some (initialSession 0)) ballYOnlyBody 1 =
        (⟨200, .simpleOk true⟩, some (setSession 1 (initialSession 0)))
    ∧ (applyUpdate ballYOnlyBody (initialSession 0)).ballY = some 300
    ∧ some (300 : ℚ) ≠ some (123 : ℚ)
    ∧ (applyUpdate ballXOnlyBody (initialSession 0)).ballY = none := by
  refine ⟨rfl, rfl, rfl, by norm_num, rfl⟩

/-- C3 amended: `update` applies a sparse patch field by field — present
fields overwrite, absent fields are untouched, and the result round-trips
through the next `state` call absent a countdown side-effect — except for
the ball group, which is patched as a whole gated on `ballX`'s presence:
when `ballX` is present all four of `ballX`, `ballY`, `ballVelX`,
`ballVelY` are assigned from the body (absent ones becoming undefined);
when `ballX` is absent none of the four is modified, even if supplied. -/
theorem claim_C3_amended_sparse_patch (b : UpdateBody) (s : Session) (now now2 : Nat)
    (hcd : ¬ ((setSession now (applyUpdate b s)).countdownActive = true
        ∧ truthyTime (setSession now (applyUpdate b s)).countdownStartTime = true)) :
    handleUpdate (some s) b now =
      (⟨200, .simpleOk true⟩, some (setSession now (applyUpdate b s)))
    ∧ applyUpdate b s =
      { s with
        p1Y := if b.player = some 1 ∧ b.paddleY ≠ none then b.paddleY.getD s.p1Y else s.p1Y
        p2Y := if b.player = some 2 ∧ b.paddleY ≠ none then b.paddleY.getD s.p2Y else s.p2Y
        ballX := if b.ballX ≠ none then b.ballX else s.ballX
        ballY := if b.ballX ≠ none then b.ballY else s.ballY
        ballVelX := if b.ballX ≠ none then b.ballVelX else s.ballVelX
        ballVelY := if b.ballX ≠ none then b.ballVelY else s.ballVelY
        ballSpeedMultiplier := b.ballSpeedMultiplier.getD s.ballSpeedMultiplier
        p1Score := b.p1Score.getD s.p1Score
        p2Score := b.p2Score.getD s.p2Score
        winner := b.winner.getD s.winner
        countdownActive := b.countdownActive.getD s.countdownActive
        countdownValue := b.countdownValue.getD s.countdownValue
        gameStarted := b.gameStarted.getD s.gameStarted
        readyToStart :=
          b.readyToStart.getD
            (if b.countdownActive = some false ∧ b.countdownValue = some 0 then true
             else s.readyToStart) }
    ∧ handleState (some (setSession now (applyUpdate b s))) now2 =
        (⟨200, .stateOk true (setSession now (applyUpdate b s))⟩,
          some (setSession now (applyUpdate b s))) := by
  refine ⟨rfl, applyUpdate_eq b s, ?_⟩
  simp only [handleState, if_neg hcd]

/-- Witness for C3 amended: a concrete body patching `p2Y` and `p1Score`
on a fresh session. -/
theorem claim_C3_amended_witness :
    handleUpdate (some (initialSession 0))
        { sessionId := some "sid", player := some 2, paddleY := some 150, p1Score := some 2 } 5 =
      (⟨200, .simpleOk true⟩, some (setSession 5 (applyUpdate
        { sessionId := some "sid", player := some 2, paddleY := some 150, p1Score := some 2 }
        (initialSession 0))))
    ∧ applyUpdate
        { sessionId := some "sid", player := some 2, paddleY := some 150, p1Score := some 2 }
        (initialSession 0) =
      { initialSession 0 with p2Y := 150, p1Score := 2 }
    ∧ handleState (some (setSession 5 (applyUpdate
          { sessionId := some "sid", player := some 2, paddleY := some 150, p1Score := some 2 }
          (initialSession 0)))) 9 =
        (⟨200, .stateOk true (setSession 5 (applyUpdate
            { sessionId := some "sid", player := some 2, paddleY := some 150, p1Score := some 2 }
            (initialSession 0)))⟩,
          some (setSession 5 (applyUpdate
            { sessionId := some "sid", player := some 2, paddleY := some 150, p1Score := some 2 }
            (initialSession 0)))) := by
  have h := claim_C3_amended_sparse_patch
    { sessionId := some "sid", player := some 2, paddleY := some 150, p1Score := some 2 }
    (initialSession 0) 5 9 (by decide)
  exact ⟨h.1, by rw [h.2.1]; rfl, h.2.2⟩

/-- An update body carrying only `sessionId` and a non-null `winner`. -/
def winnerOnlyBody : UpdateBody := { sessionId := some "sid", winner := some (some 1) }

/-- The session reached by `create` followed by one `update` whose body is
`{sessionId, winner: 1}`. -/
def winnerInjectedSession : Session := stepOp (initialSession 0) (.opUpdate winnerOnlyBody 1)

/-- C4 counterexample: a reachable session (create, then one update
supplying only `winner: 1`) has a non-null `winner` while both scores are
0, far below `WINNING_SCORE` — `handleUpdate` copies `winner` from the
request body without checking the scores. -/
theorem claim_C4_counterexample :
    ReachableSession winnerInjectedSession
    ∧ winnerInjectedSession.winner = some 1
    ∧ winnerInjectedSession.p1Score = 0
    ∧ winnerInjectedSession.p2Score = 0
    ∧ ¬ (WINNING_SCORE ≤ winnerInjectedSession.p1Score
        ∨ WINNING_SCORE ≤ winnerInjectedSession.p2Score) := by
  refine ⟨⟨0, [.opUpdate winnerOnlyBody 1], rfl⟩, rfl, rfl, rfl, ?_⟩
  rw [show winnerInjectedSession.p1Score = 0 from rfl,
      show winnerInjectedSession.p2Score = 0 from rfl]
  norm_num [WINNING_SCORE]

/-- C4 amended: the server itself never sets a non-null `winner`; for every
reachable session state produced by a sequence of operations in which no
`update` body supplies a non-null `winner`, `winner` is null.  (A non-null
`winner` can only come from an `update` body, regardless of the scores: the
`WINNING_SCORE` threshold is enforced by the game client, not by the
server.) -/
theorem claim_C4_amended_winner_only_from_update (now0 : Nat) (ops : List Op)
    (h : ∀ op ∈ ops, NoWinnerWrite op) :
    (ops.foldl stepOp (initialSession now0)).winner = none :=
  foldl_winner_none ops (initialSession now0) h rfl

/-- Witness for C4 amended: join, start, a state poll after the countdown,
a reset, and an update that starts the game — none supplying `winner` —
leave `winner` null. -/
theorem claim_C4_amended_witness :
    (([Op.opJoin 1, Op.opStart 2, Op.opState 6000, Op.opReset 7000,
        Op.opUpdate { sessionId := some "sid", gameStarted := some true } 7100].foldl
      stepOp (initialSession 0)).winner = none) :=
  claim_C4_amended_winner_only_from_update 0
    [Op.opJoin 1, Op.opStart 2, Op.opState 6000, Op.opReset 7000,
      Op.opUpdate { sessionId := some "sid", gameStarted := some true } 7100]
    (by intro op hop; fin_cases hop <;> simp [NoWinnerWrite])

/-- C9 counterexample: the 500 path does not return a generic message — the
response body carries the exception's own message verbatim (here the
`JSON.parse` failure message), so two different underlying exceptions
produce two different response bodies: detail is leaked. -/
theorem claim_C9_counterexample :
    handleRequest "POST" (some "update") true none
        (Except.error "Unexpected token u in JSON at position 0") "sid" none 0 =
      (⟨500, .errorMsg false "Unexpected token u in JSON at position 0"⟩, none)
    ∧ handleRequest "POST" (some "update") true none
        (Except.error "Unexpected end of JSON input") "sid" none 0 =
      (⟨500, .errorMsg false "Unexpected end of JSON input"⟩, none)
    ∧ ("Unexpected token u in JSON at position 0" : String)
        ≠ "Unexpected end of JSON input" := by
  refine ⟨rfl, rfl, by decide⟩

/-- C9 amended: for every POST request that raises an unexpected exception
(modelled by the `JSON.parse` failure of the request body, the unexpected
exception every action path shares), the handler returns a 500 whose body is
`{success: false, error: exception.message}` — the underlying exception's
message is echoed to the client rather than a fixed generic message. -/
theorem claim_C9_amended_500_carries_message (action : Option String)
    (detail : Option String) (msg : String) (sid : String) (store : Option Session)
    (now : Nat) :
    handleRequest "POST" action true detail (Except.error msg) sid store now =
      (⟨500, .errorMsg false msg⟩, store) := rfl
